import Mathlib

/-!
Verification of the dice_server trace-context propagation engine
(src/src/dice_server.rs) against its specification.

The Rust source is shallowly embedded below. Handlers are pure functions of
their random draws, fresh span/trace ids and transport outcome; side effects
(span starts/ends, span events, counter increments) are reified as an explicit
effect trace. The OpenTelemetry SDK primitives the source calls
(TraceContextPropagator encode/decode, span_builder start/start_with_context)
are not part of the repository; they are modelled from the spec where noted.
-/

namespace DiceServer

/-- Trace context per spec section 3: 128-bit trace-id, 64-bit span-id,
8-bit trace-flags, all modelled as bounded naturals. -/
structure TraceContext where
  traceId : Nat
  spanId : Nat
  flags : Nat
deriving DecidableEq, Repr

/-- Spec section 3 validity: non-zero trace-id, ids within their bit widths. -/
def TraceContext.valid (c : TraceContext) : Prop :=
  0 < c.traceId ∧ c.traceId < 16 ^ 32 ∧ c.spanId < 16 ^ 16 ∧ c.flags < 16 ^ 2

instance (c : TraceContext) : Decidable c.valid := by
  unfold TraceContext.valid; infer_instance

/-- A context value: the span context currently active, if any
(Rust `opentelemetry::Context`, which may carry no span). -/
abbrev Ctx : Type := Option TraceContext

/-- String-keyed carrier map for a serialized context (spec section 3). -/
abbrev Carrier : Type := List (String × String)

/-- Lower-case hex digit for `d < 16`. -/
def hexChar (d : Nat) : Char :=
  if d < 10 then Char.ofNat (48 + d) else Char.ofNat (87 + d)

/-- Inverse of `hexChar` on lower-case hex digits. -/
def hexVal (c : Char) : Option Nat :=
  if 48 ≤ c.toNat ∧ c.toNat ≤ 57 then some (c.toNat - 48)
  else if 97 ≤ c.toNat ∧ c.toNat ≤ 102 then some (c.toNat - 87)
  else none

/-- Fixed-width big-endian hex rendering of `n` on `w` digits. -/
def natToHex : Nat → Nat → List Char
  | 0, _ => []
  | w + 1, n => hexChar (n / 16 ^ w) :: natToHex w (n % 16 ^ w)

/-- Hex parse accumulating into `acc`; `none` on a non-hex character. -/
def parseHexAux (acc : Nat) : List Char → Option Nat
  | [] => some acc
  | c :: cs =>
    match hexVal c with
    | some d => parseHexAux (acc * 16 + d) cs
    | none => none

/-- Parse a big-endian lower-case hex string. -/
def parseHex (s : List Char) : Option Nat := parseHexAux 0 s

/-- Modelled from the spec: the Carrier wire format of the
TraceContextPropagator (OpenTelemetry SDK, external to the repository) —
`version-traceid(32 hex chars)-spanid(16 hex chars)-flags(2 hex chars)`
with version byte `00` (spec sections 4.1 and 6). -/
def encodeTraceparent (c : TraceContext) : List Char :=
  ['0', '0', '-'] ++ natToHex 32 c.traceId ++ ['-'] ++ natToHex 16 c.spanId
    ++ ['-'] ++ natToHex 2 c.flags

/-- Modelled from the spec: parsing of the canonical traceparent value
(spec section 4.1): fixed layout, version `00`, hex fields; a wrong length,
bad dash position, non-hex digit, or all-zero trace-id is malformed (`none`). -/
def decodeTraceparent (s : List Char) : Option TraceContext :=
  match s with
  | '0' :: '0' :: '-' :: rest =>
    let tidC := rest.take 32
    if tidC.length = 32 then
      match rest.drop 32 with
      | '-' :: rest2 =>
        let sidC := rest2.take 16
        if sidC.length = 16 then
          match rest2.drop 16 with
          | '-' :: rest3 =>
            if rest3.length = 2 then
              match parseHex tidC, parseHex sidC, parseHex rest3 with
              | some tid, some sid, some f =>
                if tid = 0 then none else some ⟨tid, sid, f⟩
              | _, _, _ => none
            else none
          | _ => none
        else none
      | _ => none
    else none
  | _ => none

/-- The canonical trace key (spec section 6). -/
def traceparentKey : String := "traceparent"

/-- Modelled from the spec: `encode(context) -> carrier` of the Context Codec
(spec section 4.1) — a single canonical key holding the traceparent value. -/
def encodeContext (c : TraceContext) : Carrier :=
  [(traceparentKey, String.mk (encodeTraceparent c))]

/-- Outcome of decoding a carrier (spec section 4.1): the key may be missing
(`absent`), present but structurally invalid (`malformed`), or valid. -/
inductive DecodeResult
  | absent
  | malformed
  | ok (c : TraceContext)
deriving DecidableEq, Repr

/-- Look a key up in a carrier. -/
def carrierGet : Carrier → String → Option String
  | [], _ => none
  | (k, v) :: rest, key => if key = k then some v else carrierGet rest key

/-- Modelled from the spec: `decode(carrier) -> TraceContext | absent`
(spec section 4.1); unknown extra keys are ignored, a missing canonical key is
`absent`, a present but unparsable value is `malformed`. -/
def decodeCarrier (car : Carrier) : DecodeResult :=
  match carrierGet car traceparentKey with
  | none => .absent
  | some v =>
    match decodeTraceparent v.data with
    | none => .malformed
    | some c => .ok c

/-- Span kinds of the OpenTelemetry data model (spec section 3). -/
inductive SpanKindT
  | server
  | client
  | producer
  | consumer
  | internal
deriving DecidableEq, Repr

/-- Span status (spec section 3): unset, ok or error. -/
inductive SpanStatus
  | unset
  | ok
  | error
deriving DecidableEq, Repr

/-- The identifying data of a started span (spec section 3). -/
structure SpanData where
  name : String
  kind : SpanKindT
  traceId : Nat
  spanId : Nat
  parentSpanId : Option Nat
  flags : Nat
deriving DecidableEq, Repr

/-- Modelled from the spec: the SDK span builder's `start_with_context` /
`start` (spec section 4.2, external to the repository). With a parent context
holding a valid trace context the span keeps the parent's trace-id and flags
and records the parent's span-id; otherwise a fresh root is started. The
random id draws are passed in as `freshTraceId` / `freshSpanId`. -/
def startSpanWithParent (name : String) (kind : SpanKindT) (parent : Ctx)
    (freshTraceId freshSpanId : Nat) : SpanData :=
  match parent with
  | some p =>
    if 0 < p.traceId then
      ⟨name, kind, p.traceId, freshSpanId, some p.spanId, p.flags⟩
    else
      ⟨name, kind, freshTraceId, freshSpanId, none, 1⟩
  | none => ⟨name, kind, freshTraceId, freshSpanId, none, 1⟩

/-- The context a span makes current: its own trace context. -/
def SpanData.ctx (s : SpanData) : Ctx := some ⟨s.traceId, s.spanId, s.flags⟩

/-- src `get_cx_from_parent_cx` (dice_server.rs lines 75-99): builds a span
named `spam_name` with kind `SpanKind::Server` in both arms — via
`start_with_context` when a parent context is supplied, `start` otherwise —
and returns the span together with the context that makes it current. -/
def get_cx_from_parent_cx (tracer_name spam_name : String)
    (parent_cx : Option Ctx) (freshTraceId freshSpanId : Nat) : SpanData × Ctx :=
  let span :=
    match parent_cx with
    | some cx => startSpanWithParent spam_name .server cx freshTraceId freshSpanId
    | none => startSpanWithParent spam_name .server none freshTraceId freshSpanId
  (span, span.ctx)

/-- An outbound request's header map (`awc` HeaderMap), string keys/values. -/
abbrev HeaderMap : Type := List (String × String)

/-- Header lookup. -/
def headerGet : HeaderMap → String → Option String
  | [], _ => none
  | (k, v) :: rest, key => if key = k then some v else headerGet rest key

/-- Drop every entry with the given key. -/
def headerRemove : HeaderMap → String → HeaderMap
  | [], _ => []
  | (k, v) :: rest, key =>
    if k = key then headerRemove rest key else (k, v) :: headerRemove rest key

/-- `HeaderMap::insert`: replaces any previous value of the key. -/
def headerInsert (m : HeaderMap) (k v : String) : HeaderMap :=
  headerRemove m k ++ [(k, v)]

/-- Modelled from the spec: the propagator's inject (spec section 4.3 step 1):
encode the current context into a carrier; a context with no valid trace
context injects nothing. -/
def propagatorInject (cx : Ctx) : Carrier :=
  match cx with
  | some c => if 0 < c.traceId then encodeContext c else []
  | none => []

/-- src `inject_context` (dice_server.rs lines 45-62): let the propagator
fill a fresh header map, then insert each resulting (key, value) pair into
the outbound request's headers. -/
def inject_context (request : HeaderMap) (cx : Ctx) : HeaderMap :=
  (propagatorInject cx).foldl (fun r kv => headerInsert r kv.1 kv.2) request

/-- `HeaderValue::to_str`: succeeds exactly on visible-ASCII byte values
(bytes 32..126), else errors. -/
def headerToStr (v : List Nat) : Option String :=
  if v.all (fun b => decide (32 ≤ b ∧ b ≤ 126)) then
    some (String.mk (v.map Char.ofNat))
  else none

/-- Modelled from the spec: the propagator's extract (spec sections 4.1 and
4.4): a missing canonical key or a malformed value both yield a context with
no remote span; a valid value yields it as the remote context. -/
def propagatorExtract (car : Carrier) : Ctx :=
  match decodeCarrier car with
  | .ok c => some c
  | .absent => none
  | .malformed => none

/-- src `extract_context` (dice_server.rs lines 64-73): copies every request
header into a string map calling `value.to_str().unwrap()`, then runs the
propagator's extract. The `unwrap` panics when any header value fails
`to_str`; the panic is modelled as `none`. -/
def extract_context (headers : List (String × List Nat)) : Option Ctx :=
  if headers.all (fun p => (headerToStr p.2).isSome) then
    some (propagatorExtract
      (headers.map (fun p => (p.1, (headerToStr p.2).getD ""))))
  else none

/-- Observable side effects of a handler, in program order: span lifecycle
(the Rust SDK ends a span when the `Context` holding it is dropped at scope
exit), span events, status changes, and the two global counters. -/
inductive Effect
  | spanStart (s : SpanData)
  | spanEnd (spanName : String)
  | addEvent (spanName : String) (eventName : String)
      (attrs : List (String × String))
  | setStatus (spanName : String) (st : SpanStatus)
  | incrSuccess
  | incrFailure
deriving DecidableEq, Repr

/-- An HTTP response as the handlers build it: a status code and a body. -/
structure HttpResponseM where
  status : Nat
  body : String
deriving DecidableEq, Repr

/-- Outcome of the entrypoint's outbound call (`request.send().await` and
`response.body().await` in dice_server.rs lines 113-131). -/
inductive TransportOutcome
  | ok (body : String)
  | bodyErr
  | sendErr
deriving DecidableEq, Repr

/-- src `randnum` handler (dice_server.rs lines 101-132), the entrypoint:
opens a root span, injects its context into the outbound request, and on the
three transport outcomes records the event, bumps one counter once and builds
the response; the span ends when `cx` is dropped at scope exit. -/
def randnum (outcome : TransportOutcome) (freshTraceId freshSpanId : Nat) :
    HttpResponseM × List Effect :=
  let sc := get_cx_from_parent_cx "dice_server" "randnum" none freshTraceId freshSpanId
  let span := sc.1
  match outcome with
  | .ok body =>
    (⟨200, body⟩,
     [.spanStart span, .incrSuccess,
      .addEvent "randnum" "从 gen_num 收到响应" [],
      .spanEnd "randnum"])
  | .bodyErr =>
    (⟨500, "读取响应体失败"⟩,
     [.spanStart span, .incrFailure,
      .addEvent "randnum" "读取响应体失败" [],
      .spanEnd "randnum"])
  | .sendErr =>
    (⟨500, "发送请求失败"⟩,
     [.spanStart span, .incrFailure,
      .addEvent "randnum" "发送请求失败" [],
      .spanEnd "randnum"])

/-- The headers the entrypoint actually sends: its outbound headers after
`inject_context` (dice_server.rs lines 108-111). -/
def randnum_outbound_headers (preHeaders : HeaderMap)
    (freshTraceId freshSpanId : Nat) : HeaderMap :=
  let sc := get_cx_from_parent_cx "dice_server" "randnum" none freshTraceId freshSpanId
  inject_context preHeaders sc.2

/-- src `is_odd` (dice_server.rs lines 169-179): opens a nested span parented
to the caller's context, draws a fair boolean `b`, records it as the event
attribute and returns it; the nested span ends at scope exit. -/
def is_odd (cx : Ctx) (b : Bool) (freshTraceId freshSpanId : Nat) :
    Bool × List Effect :=
  let sc := get_cx_from_parent_cx "dice_server" "is_odd" (some cx)
    freshTraceId freshSpanId
  (b,
   [.spanStart sc.1,
    .addEvent "is_odd" "odd or even" [("is odd?", toString b)],
    .spanEnd "is_odd"])

/-- src `gen_num` handler (dice_server.rs lines 134-167), the worker:
extracts the parent context from the request headers (`none` models the
`unwrap` panic on a non-string header value), opens a span parented to it,
draws `n` from `1..10`, doubles it, adds one when `is_odd` returns true,
records the number as an event, bumps the success counter and responds with
the decimal rendering; both spans end at their scope exits. -/
def gen_num (headers : List (String × List Nat)) (n : Nat) (b : Bool)
    (t1 s1 t2 s2 : Nat) : Option (HttpResponseM × List Effect) :=
  match extract_context headers with
  | none => none
  | some parent_cx =>
    let sc := get_cx_from_parent_cx "dice_server" "gen_num" (some parent_cx) t1 s1
    let odd := is_odd sc.2 b t2 s2
    let random_number := if odd.1 then 2 * n + 1 else 2 * n
    some (⟨200, toString random_number⟩,
      [Effect.spanStart sc.1] ++ odd.2 ++
      [.addEvent "gen_num" "Generated random number"
        [("number", toString random_number)],
       .incrSuccess,
       .spanEnd "gen_num"])

/-- Count of success-counter increments in a trace. -/
def countSuccess (l : List Effect) : Nat :=
  l.countP (fun e => match e with | .incrSuccess => true | _ => false)

/-- Count of failure-counter increments in a trace. -/
def countFailure (l : List Effect) : Nat :=
  l.countP (fun e => match e with | .incrFailure => true | _ => false)

/-- Count of span starts in a trace. -/
def countStarts (l : List Effect) : Nat :=
  l.countP (fun e => match e with | .spanStart _ => true | _ => false)

/-- Count of span ends in a trace. -/
def countEnds (l : List Effect) : Nat :=
  l.countP (fun e => match e with | .spanEnd _ => true | _ => false)

/-- Final status of the named span after a trace: the last `setStatus`, or
`unset` when the trace never sets one. -/
def finalStatus (spanName : String) (l : List Effect) : SpanStatus :=
  l.foldl
    (fun st e =>
      match e with
      | .setStatus n s => if n = spanName then s else st
      | _ => st)
    .unset

/-- The kinds of the spans started in a trace, in order. -/
def startKinds (l : List Effect) : List SpanKindT :=
  l.filterMap (fun e => match e with | .spanStart s => some s.kind | _ => none)

/-- Whether a transport outcome is one of the two failure outcomes. -/
def TransportOutcome.isFail : TransportOutcome → Bool
  | .ok _ => false
  | .bodyErr => true
  | .sendErr => true

/-- The concrete worker run used by the witnesses: empty headers, draw 3,
decision true, all fresh ids 0. -/
def genNumSampleRun : HttpResponseM × List Effect :=
  (⟨200, "7"⟩,
   [.spanStart ⟨"gen_num", .server, 0, 0, none, 1⟩,
    .spanStart ⟨"is_odd", .server, 0, 0, none, 1⟩,
    .addEvent "is_odd" "odd or even" [("is odd?", "true")],
    .spanEnd "is_odd",
    .addEvent "gen_num" "Generated random number" [("number", "7")],
    .incrSuccess,
    .spanEnd "gen_num"])

theorem hexVal_hexChar (d : Nat) (h : d < 16) : hexVal (hexChar d) = some d := by
  interval_cases d <;> decide

theorem natToHex_length (w : Nat) : ∀ n, (natToHex w n).length = w := by
  induction w with
  | zero => intro n; rfl
  | succ w ih => intro n; simp [natToHex, ih]

theorem parseHexAux_natToHex (w : Nat) :
    ∀ n acc, n < 16 ^ w → parseHexAux acc (natToHex w n) = some (acc * 16 ^ w + n) := by
  induction w with
  | zero =>
    intro n acc h
    interval_cases n
    simp [natToHex, parseHexAux]
  | succ w ih =>
    intro n acc h
    have hd : n / 16 ^ w < 16 := by
      apply Nat.div_lt_of_lt_mul
      calc n < 16 ^ (w + 1) := h
        _ = 16 ^ w * 16 := by ring
    have hm : n % 16 ^ w < 16 ^ w := Nat.mod_lt _ (by positivity)
    simp only [natToHex, parseHexAux, hexVal_hexChar _ hd]
    rw [ih _ _ hm]
    congr 1
    have h1 : (acc * 16 + n / 16 ^ w) * 16 ^ w + n % 16 ^ w
        = acc * 16 ^ (w + 1) + (n / 16 ^ w * 16 ^ w + n % 16 ^ w) := by ring
    rw [h1, Nat.div_add_mod']

theorem parseHex_natToHex (w n : Nat) (h : n < 16 ^ w) :
    parseHex (natToHex w n) = some n := by
  unfold parseHex
  rw [parseHexAux_natToHex w n 0 h]
  simp

theorem decodeTraceparent_layout (A B C : List Char)
    (hA : A.length = 32) (hB : B.length = 16) (hC : C.length = 2) :
    decodeTraceparent ('0' :: '0' :: '-' :: (A ++ '-' :: (B ++ '-' :: C)))
      = match parseHex A, parseHex B, parseHex C with
        | some tid, some sid, some f =>
          if tid = 0 then none else some ⟨tid, sid, f⟩
        | _, _, _ => none := by
  have h1 : (A ++ '-' :: (B ++ '-' :: C)).take 32 = A := by
    rw [← hA]; exact List.take_left A _
  have h2 : (A ++ '-' :: (B ++ '-' :: C)).drop 32 = '-' :: (B ++ '-' :: C) := by
    rw [← hA]; exact List.drop_left A _
  have h3 : (B ++ '-' :: C).take 16 = B := by
    rw [← hB]; exact List.take_left B _
  have h4 : (B ++ '-' :: C).drop 16 = '-' :: C := by
    rw [← hB]; exact List.drop_left B _
  simp only [decodeTraceparent, h1, h2, h3, h4, hA, hB, hC, if_true]

theorem decodeTraceparent_encodeTraceparent (c : TraceContext) (h : c.valid) :
    decodeTraceparent (encodeTraceparent c) = some c := by
  obtain ⟨h0, h1, h2, h3⟩ := h
  have e : encodeTraceparent c
      = '0' :: '0' :: '-' :: (natToHex 32 c.traceId
          ++ '-' :: (natToHex 16 c.spanId ++ '-' :: natToHex 2 c.flags)) := by
    simp [encodeTraceparent]
  rw [e, decodeTraceparent_layout _ _ _ (natToHex_length 32 _)
      (natToHex_length 16 _) (natToHex_length 2 _),
    parseHex_natToHex 32 _ h1, parseHex_natToHex 16 _ h2, parseHex_natToHex 2 _ h3]
  simp [Nat.pos_iff_ne_zero.mp h0]

theorem startSpanWithParent_kind (name : String) (kind : SpanKindT)
    (parent : Ctx) (t s : Nat) :
    (startSpanWithParent name kind parent t s).kind = kind := by
  cases parent with
  | none => rfl
  | some p =>
    unfold startSpanWithParent
    by_cases hp : 0 < p.traceId <;> simp [hp]

theorem headerGet_remove_ne (m : HeaderMap) (key k' : String) (h : k' ≠ key) :
    headerGet (headerRemove m key) k' = headerGet m k' := by
  induction m with
  | nil => rfl
  | cons p rest ih =>
    obtain ⟨pk, pv⟩ := p
    by_cases hp : pk = key
    · subst hp
      simp [headerRemove, headerGet, h, ih]
    · simp only [headerRemove, hp, if_false, headerGet]
      split <;> simp [ih]

theorem headerGet_remove_self (m : HeaderMap) (key : String) :
    headerGet (headerRemove m key) key = none := by
  induction m with
  | nil => rfl
  | cons p rest ih =>
    obtain ⟨pk, pv⟩ := p
    by_cases hp : pk = key
    · simp [headerRemove, hp, ih]
    · simp [headerRemove, headerGet, hp, Ne.symm hp, ih]

theorem headerGet_append (l1 l2 : HeaderMap) (key : String) :
    headerGet (l1 ++ l2) key
      = match headerGet l1 key with
        | some v => some v
        | none => headerGet l2 key := by
  induction l1 with
  | nil => rfl
  | cons p rest ih =>
    obtain ⟨pk, pv⟩ := p
    by_cases hp : key = pk <;> simp [headerGet, hp, ih]

theorem headerGet_insert_self (m : HeaderMap) (k v : String) :
    headerGet (headerInsert m k v) k = some v := by
  unfold headerInsert
  rw [headerGet_append, headerGet_remove_self]
  simp [headerGet]

theorem headerGet_insert_other (m : HeaderMap) (k v k' : String) (h : k' ≠ k) :
    headerGet (headerInsert m k v) k' = headerGet m k' := by
  unfold headerInsert
  rw [headerGet_append, headerGet_remove_ne m k k' h]
  cases hg : headerGet m k' <;> simp [headerGet, h, hg]

/-- Claim C2: for every valid TraceContext (non-zero trace-id, ids within
their bit widths), encoding it into a carrier and decoding that carrier
yields the same TraceContext back (same trace-id, span-id and flags). -/
theorem decode_encode_roundtrip (c : TraceContext) (h : c.valid) :
    decodeCarrier (encodeContext c) = .ok c := by
  simp [decodeCarrier, encodeContext, carrierGet,
    decodeTraceparent_encodeTraceparent c h]

/-- Witness for C2 at the concrete context ⟨1, 2, 3⟩. -/
theorem decode_encode_roundtrip_witness :
    (TraceContext.mk 1 2 3).valid
      ∧ decodeCarrier (encodeContext ⟨1, 2, 3⟩) = .ok ⟨1, 2, 3⟩ :=
  ⟨by decide, decode_encode_roundtrip ⟨1, 2, 3⟩ (by decide)⟩

/-- Claim C3: a span created by `get_cx_from_parent_cx` from a parent context
holding a valid trace context keeps the parent's trace-id and records the
parent's span-id as its parent-span-id; with no parent context the span is a
root carrying the freshly generated trace-id and span-id and no parent. -/
theorem span_parent_linkage (tn nm : String) (p : TraceContext) (t s : Nat)
    (hp : 0 < p.traceId) :
    ((get_cx_from_parent_cx tn nm (some (some p)) t s).1.traceId = p.traceId
      ∧ (get_cx_from_parent_cx tn nm (some (some p)) t s).1.parentSpanId
          = some p.spanId)
    ∧ ((get_cx_from_parent_cx tn nm none t s).1.traceId = t
      ∧ (get_cx_from_parent_cx tn nm none t s).1.spanId = s
      ∧ (get_cx_from_parent_cx tn nm none t s).1.parentSpanId = none) := by
  unfold get_cx_from_parent_cx startSpanWithParent
  simp [hp]

/-- Witness for C3 at the parent context ⟨1, 2, 3⟩ and fresh ids 7, 8. -/
theorem span_parent_linkage_witness :
    0 < (TraceContext.mk 1 2 3).traceId
      ∧ (((get_cx_from_parent_cx "dice_server" "gen_num"
            (some (some ⟨1, 2, 3⟩)) 7 8).1.traceId = (TraceContext.mk 1 2 3).traceId
          ∧ (get_cx_from_parent_cx "dice_server" "gen_num"
              (some (some ⟨1, 2, 3⟩)) 7 8).1.parentSpanId
              = some (TraceContext.mk 1 2 3).spanId)
        ∧ ((get_cx_from_parent_cx "dice_server" "gen_num" none 7 8).1.traceId = 7
          ∧ (get_cx_from_parent_cx "dice_server" "gen_num" none 7 8).1.spanId = 8
          ∧ (get_cx_from_parent_cx "dice_server" "gen_num" none 7 8).1.parentSpanId
              = none)) :=
  ⟨by decide, span_parent_linkage "dice_server" "gen_num" ⟨1, 2, 3⟩ 7 8 (by decide)⟩

/-- Claim C9: `inject_context` from a context holding a valid trace context
leaves every pre-existing header on a key other than the canonical trace key
unchanged, and overwrites the canonical trace key with the encoded context. -/
theorem inject_context_frame (m : HeaderMap) (c : TraceContext) (k : String)
    (hv : 0 < c.traceId) (hk : k ≠ traceparentKey) :
    headerGet (inject_context m (some c)) k = headerGet m k
      ∧ headerGet (inject_context m (some c)) traceparentKey
          = some (String.mk (encodeTraceparent c)) := by
  have hz : inject_context m (some c)
      = headerInsert m traceparentKey (String.mk (encodeTraceparent c)) := by
    simp [inject_context, propagatorInject, hv, encodeContext, List.foldl]
  rw [hz]
  exact ⟨headerGet_insert_other m _ _ k hk, headerGet_insert_self m _ _⟩

/-- Witness for C9: a pre-existing `accept` header and a stale `traceparent`
header, injected from the context ⟨1, 2, 3⟩. -/
theorem inject_context_frame_witness :
    (0 < (TraceContext.mk 1 2 3).traceId ∧ "accept" ≠ traceparentKey)
      ∧ (headerGet (inject_context [("accept", "text"), (traceparentKey, "stale")]
            (some ⟨1, 2, 3⟩)) "accept"
          = headerGet [("accept", "text"), (traceparentKey, "stale")] "accept"
        ∧ headerGet (inject_context [("accept", "text"), (traceparentKey, "stale")]
              (some ⟨1, 2, 3⟩)) traceparentKey
            = some (String.mk (encodeTraceparent ⟨1, 2, 3⟩))) :=
  ⟨⟨by decide, by decide⟩,
   inject_context_frame [("accept", "text"), (traceparentKey, "stale")]
     ⟨1, 2, 3⟩ "accept" (by decide) (by decide)⟩

/-- Claim C1: every worker response carries status 200 and as its body the
decimal rendering of 2*n, plus one exactly when the independent boolean draw
is true, for a pre-increment draw n uniform in [1, 9]; the value is always
in [2, 19]. -/
theorem gen_num_range (headers : List (String × List Nat)) (n : Nat) (b : Bool)
    (t1 s1 t2 s2 : Nat) (r : HttpResponseM × List Effect)
    (h1 : 1 ≤ n) (h2 : n < 10)
    (h : gen_num headers n b t1 s1 t2 s2 = some r) :
    ∃ k : Nat, r.1.status = 200 ∧ r.1.body = toString k
      ∧ k = 2 * n + (if b then 1 else 0) ∧ 2 ≤ k ∧ k ≤ 19 := by
  cases hx : extract_context headers with
  | none => rw [gen_num, hx] at h; exact absurd h (by simp)
  | some pcx =>
    simp only [gen_num, hx, is_odd] at h
    injection h with h'
    subst h'
    refine ⟨if b then 2 * n + 1 else 2 * n, rfl, rfl, ?_, ?_, ?_⟩
    · cases b <;> simp
    · cases b <;> simp <;> omega
    · cases b <;> simp <;> omega

/-- Witness for C1 at empty headers, draw 3, decision true. -/
theorem gen_num_range_witness :
    (1 ≤ 3 ∧ 3 < 10 ∧ gen_num [] 3 true 0 0 0 0 = some genNumSampleRun)
      ∧ ∃ k : Nat, genNumSampleRun.1.status = 200
          ∧ genNumSampleRun.1.body = toString k
          ∧ k = 2 * 3 + (if true then 1 else 0) ∧ 2 ≤ k ∧ k ≤ 19 :=
  ⟨⟨by decide, by decide, by decide⟩,
   gen_num_range [] 3 true 0 0 0 0 genNumSampleRun (by decide) (by decide)
     (by decide)⟩

/-- Claim C10: the worker's returned integer is odd exactly when the nested
decision draw returned true, and the nested span's event attribute records
exactly the boolean `is_odd` returns to its caller. -/
theorem odd_iff_decision (headers : List (String × List Nat)) (n : Nat)
    (b : Bool) (t1 s1 t2 s2 : Nat) (r : HttpResponseM × List Effect)
    (h : gen_num headers n b t1 s1 t2 s2 = some r) (cx : Ctx) (t s : Nat) :
    (∃ k : Nat, r.1.body = toString k ∧ (k % 2 = 1 ↔ b = true))
      ∧ (is_odd cx b t s).1 = b
      ∧ Effect.addEvent "is_odd" "odd or even"
          [("is odd?", toString (is_odd cx b t s).1)] ∈ (is_odd cx b t s).2
      ∧ Effect.addEvent "is_odd" "odd or even" [("is odd?", toString b)] ∈ r.2 := by
  cases hx : extract_context headers with
  | none => rw [gen_num, hx] at h; exact absurd h (by simp)
  | some pcx =>
    simp only [gen_num, hx, is_odd] at h
    injection h with h'
    subst h'
    refine ⟨⟨if b then 2 * n + 1 else 2 * n, rfl, ?_⟩, rfl, by simp [is_odd], ?_⟩
    · cases b <;> simp <;> omega
    · simp

/-- Witness for C10 at empty headers, draw 3, decision true. -/
theorem odd_iff_decision_witness :
    gen_num [] 3 true 0 0 0 0 = some genNumSampleRun
      ∧ ((∃ k : Nat, genNumSampleRun.1.body = toString k ∧ (k % 2 = 1 ↔ true = true))
        ∧ (is_odd none true 0 0).1 = true
        ∧ Effect.addEvent "is_odd" "odd or even"
            [("is odd?", toString (is_odd none true 0 0).1)] ∈ (is_odd none true 0 0).2
        ∧ Effect.addEvent "is_odd" "odd or even" [("is odd?", toString true)]
            ∈ genNumSampleRun.2) :=
  ⟨by decide,
   odd_iff_decision [] 3 true 0 0 0 0 genNumSampleRun (by decide) none 0 0⟩

/-- Claim C4 counterexample: on the concrete send-failure outcome the
entrypoint does return a 500 response, but the span's status after the whole
trace is still `unset`, not `error` — `randnum` never calls `set_status`. -/
theorem randnum_failure_status_not_error :
    (randnum .sendErr 0 0).1.status = 500
      ∧ finalStatus "randnum" (randnum .sendErr 0 0).2 = .unset
      ∧ finalStatus "randnum" (randnum .sendErr 0 0).2 ≠ .error := by
  refine ⟨rfl, rfl, by decide⟩

/-- Claim C4 (amended): on every failing outbound outcome the entrypoint
appends a failure event to its span, increments the failure counter exactly
once, leaves the success counter unchanged and returns a server-error
response without panicking; the span's status is left unset (the handler
never sets an error status). -/
theorem randnum_failure_behavior (o : TransportOutcome) (t s : Nat)
    (h : o.isFail = true) :
    (randnum o t s).1.status = 500
      ∧ countFailure (randnum o t s).2 = 1
      ∧ countSuccess (randnum o t s).2 = 0
      ∧ (Effect.addEvent "randnum" "读取响应体失败" [] ∈ (randnum o t s).2
          ∨ Effect.addEvent "randnum" "发送请求失败" [] ∈ (randnum o t s).2)
      ∧ finalStatus "randnum" (randnum o t s).2 = .unset := by
  cases o with
  | ok body => exact absurd h (by simp [TransportOutcome.isFail])
  | bodyErr => exact ⟨rfl, rfl, rfl, Or.inl (by simp [randnum]), rfl⟩
  | sendErr => exact ⟨rfl, rfl, rfl, Or.inr (by simp [randnum]), rfl⟩

/-- Witness for the amended C4 at the send-failure outcome. -/
theorem randnum_failure_behavior_witness :
    TransportOutcome.sendErr.isFail = true
      ∧ ((randnum .sendErr 5 6).1.status = 500
        ∧ countFailure (randnum .sendErr 5 6).2 = 1
        ∧ countSuccess (randnum .sendErr 5 6).2 = 0
        ∧ (Effect.addEvent "randnum" "读取响应体失败" [] ∈ (randnum .sendErr 5 6).2
            ∨ Effect.addEvent "randnum" "发送请求失败" [] ∈ (randnum .sendErr 5 6).2)
        ∧ finalStatus "randnum" (randnum .sendErr 5 6).2 = .unset) :=
  ⟨by decide, randnum_failure_behavior .sendErr 5 6 (by decide)⟩

/-- Claim C5: decoding never fails the worker request — refuted on the code.
A missing canonical key and a malformed-but-ASCII value both degrade to a
context with no remote span, but a header value outside visible ASCII makes
`extract_context` panic in `to_str().unwrap()` (modelled as `none`), so the
request dies before the worker can respond. -/
theorem extract_context_panics :
    extract_context [] = some none
      ∧ extract_context
          [("traceparent", [103, 97, 114, 98, 97, 103, 101])] = some none
      ∧ extract_context [("traceparent", [255])] = none
      ∧ gen_num [("traceparent", [255])] 3 true 0 0 0 0 = none := by
  refine ⟨by decide, by decide, by decide, by decide⟩

/-- Claim C6: the entrypoint increments exactly one of the two counters by
exactly one per completed request (so each counter moves at most once), and
a completed worker request increments the success counter exactly once and
the failure counter never; the effect model has no decrement at all. -/
theorem counter_increments (o : TransportOutcome) (t s : Nat)
    (headers : List (String × List Nat)) (n : Nat) (b : Bool)
    (t1 s1 t2 s2 : Nat) (r : HttpResponseM × List Effect)
    (h : gen_num headers n b t1 s1 t2 s2 = some r) :
    countSuccess (randnum o t s).2 + countFailure (randnum o t s).2 = 1
      ∧ countSuccess (randnum o t s).2 ≤ 1
      ∧ countFailure (randnum o t s).2 ≤ 1
      ∧ countSuccess r.2 = 1
      ∧ countFailure r.2 = 0 := by
  cases hx : extract_context headers with
  | none => rw [gen_num, hx] at h; exact absurd h (by simp)
  | some pcx =>
    simp only [gen_num, hx, is_odd] at h
    injection h with h'
    subst h'
    cases o with
    | ok body => exact ⟨rfl, Nat.le_refl 1, Nat.zero_le 1, rfl, rfl⟩
    | bodyErr => exact ⟨rfl, Nat.zero_le 1, Nat.le_refl 1, rfl, rfl⟩
    | sendErr => exact ⟨rfl, Nat.zero_le 1, Nat.le_refl 1, rfl, rfl⟩

/-- Witness for C6 at the success outcome and the sample worker run. -/
theorem counter_increments_witness :
    gen_num [] 3 true 0 0 0 0 = some genNumSampleRun
      ∧ (countSuccess (randnum (.ok "7") 1 2).2
            + countFailure (randnum (.ok "7") 1 2).2 = 1
        ∧ countSuccess (randnum (.ok "7") 1 2).2 ≤ 1
        ∧ countFailure (randnum (.ok "7") 1 2).2 ≤ 1
        ∧ countSuccess genNumSampleRun.2 = 1
        ∧ countFailure genNumSampleRun.2 = 0) :=
  ⟨by decide,
   counter_increments (.ok "7") 1 2 [] 3 true 0 0 0 0 genNumSampleRun (by decide)⟩

/-- Claim C7: on every exit path the number of span ends equals the number of
span starts — one span for the entrypoint on all three outcomes, two spans
(worker span and nested decision span) for a completed worker request. -/
theorem span_closure (o : TransportOutcome) (t s : Nat)
    (headers : List (String × List Nat)) (n : Nat) (b : Bool)
    (t1 s1 t2 s2 : Nat) (r : HttpResponseM × List Effect)
    (h : gen_num headers n b t1 s1 t2 s2 = some r) :
    countStarts (randnum o t s).2 = countEnds (randnum o t s).2
      ∧ countStarts (randnum o t s).2 = 1
      ∧ countStarts r.2 = countEnds r.2
      ∧ countStarts r.2 = 2 := by
  cases hx : extract_context headers with
  | none => rw [gen_num, hx] at h; exact absurd h (by simp)
  | some pcx =>
    simp only [gen_num, hx, is_odd] at h
    injection h with h'
    subst h'
    cases o <;> exact ⟨rfl, rfl, rfl, rfl⟩

/-- Witness for C7 at the body-failure outcome and the sample worker run. -/
theorem span_closure_witness :
    gen_num [] 3 true 0 0 0 0 = some genNumSampleRun
      ∧ (countStarts (randnum .bodyErr 1 2).2 = countEnds (randnum .bodyErr 1 2).2
        ∧ countStarts (randnum .bodyErr 1 2).2 = 1
        ∧ countStarts genNumSampleRun.2 = countEnds genNumSampleRun.2
        ∧ countStarts genNumSampleRun.2 = 2) :=
  ⟨by decide,
   span_closure .bodyErr 1 2 [] 3 true 0 0 0 0 genNumSampleRun (by decide)⟩

/-- Claim C8 counterexample: the nested decision span started by `is_odd` has
kind `server`, not `internal` — `get_cx_from_parent_cx` hard-codes
`SpanKind::Server` for every span it builds. -/
theorem is_odd_span_kind_not_internal :
    startKinds (is_odd none true 0 0).2 = [.server]
      ∧ SpanKindT.server ≠ SpanKindT.internal := by
  refine ⟨by decide, by decide⟩

/-- Claim C8 (amended): every span created by the span factory — for
inbound-triggered operations and for the nested decision sub-computation
alike — has kind `server`. -/
theorem all_spans_server_kind (tn nm : String) (p : Option Ctx) (t s : Nat)
    (cx : Ctx) (b : Bool) (t2 s2 : Nat) :
    (get_cx_from_parent_cx tn nm p t s).1.kind = .server
      ∧ startKinds (is_odd cx b t2 s2).2 = [.server] := by
  constructor
  · unfold get_cx_from_parent_cx
    cases p with
    | none => exact startSpanWithParent_kind nm .server none t s
    | some cx' => exact startSpanWithParent_kind nm .server cx' t s
  · simp [is_odd, startKinds, get_cx_from_parent_cx,
      startSpanWithParent_kind nm .server]
    exact startSpanWithParent_kind "is_odd" .server cx t2 s2

end DiceServer
